import Mathlib

/-!
Shallow embedding of the Pluggit smarthome plugin (src/pluggit/__init__.py),
a Modbus TCP polling bridge for the Pluggit AP310 ventilation unit.

Device interaction is modelled by an oracle (`Device`) giving the outcome of
each transport operation; each plugin operation is embedded as a function
producing the list of observable events it issues (register reads, register
writes, sleeps, item publishes) together with a success flag that is `false`
exactly when the Python code raises an exception out of the modelled block.
-/

namespace Pluggit

/-- Values published to bound items: integers, strings or (rounded) rationals
standing for Python floats. -/
inductive Value where
  | nat (n : ℕ)
  | str (s : String)
  | rat (q : ℚ)
deriving DecidableEq, Repr

/-- Observable effects of the plugin: transport reads/writes, sleeps,
publishes to bound items, and session open/close. `readSingle a` is
`read_holding_registers(a, 1)` at the default unit; `readDual a u` is
`read_holding_registers(a, 2, unit=u)`. -/
inductive Event where
  | readSingle (addr : ℕ)
  | readDual (addr : ℕ) (unit : ℕ)
  | writeRegisters (addr : ℕ) (payload : List ℕ)
  | publish (item : String) (v : Value)
  | sleep (q : ℚ)
  | openSession
  | closeSession
deriving DecidableEq, Repr

/-- The `_modbusRegisterDic` dictionary of the source: parameter name to
zero-based PDU register address. -/
def _modbusRegisterDic : List (String × ℕ) :=
  [("prmRamIdxT1", 133),
   ("prmRamIdxT2", 135),
   ("prmRamIdxT3", 137),
   ("prmRamIdxT4", 139),
   ("prmRamIdxUnitMode", 168),
   ("prmRamIdxBypassActualState", 198),
   ("prmRomIdxSpeedLevel", 324),
   ("prmNumOfWeekProgram", 466),
   ("prmFilterRemainingTime", 554)]

/-- Address lookup `self._modbusRegisterDic[key]` (0 for a missing key; the
source only looks up keys present in the dictionary). -/
def regAddr (k : String) : ℕ :=
  (_modbusRegisterDic.lookup k).getD 0

/-- Oracle for the Modbus transport: outcome of a single-register read
(`getRegister(0)` of `read_holding_registers(addr, 1)`), of a two-register
read at unit 22 (the pair of 16-bit register words), and of a multi-register
write. `Except.error` models a raised exception. -/
structure Device where
  single : ℕ → Except Unit ℕ
  dual : ℕ → Except Unit (ℕ × ℕ)
  write : ℕ → List ℕ → Except Unit Unit

/-- Sequencing of two event-producing steps: if the first step raised, the
second is not executed. -/
def seqE (a : List Event × Bool) (f : Unit → List Event × Bool) : List Event × Bool :=
  match a with
  | (es, false) => (es, false)
  | (es, true) => let (es2, b) := f (); (es ++ es2, b)

/-- Modelled from the spec: the `BinaryPayloadDecoder.fromRegisters(...,
endian=Endian.Big).decode_32bit_float()` call of the vendored pymodbus
payload module, whose source is not part of this repository snapshot. Per
the spec it concatenates the two 16-bit register words in big-endian order
into a 32-bit word and interprets it as an IEEE754 binary32 float; the value
of a finite binary32 is embedded exactly as a rational (the non-finite
patterns with exponent field 255 are mapped to 0; no claim concerns them). -/
def decode_32bit_float (r1 r2 : ℕ) : ℚ :=
  let n := (r1 % 65536) * 65536 + r2 % 65536
  let sign : ℚ := if n / 2 ^ 31 % 2 = 1 then -1 else 1
  let e : ℕ := n / 2 ^ 23 % 256
  let m : ℕ := n % 2 ^ 23
  if e = 0 then sign * (m : ℚ) / 2 ^ 149
  else if e = 255 then 0
  else sign * (((2 ^ 23 + m : ℕ) : ℚ) * (2 : ℚ) ^ e) / 2 ^ 150

/-- Round a rational to the nearest integer, ties to even: the rounding of
the Python builtin `round` on the exact decimal value. -/
def roundHalfEven (q : ℚ) : ℤ :=
  let n := ⌊q⌋
  if q - (n : ℚ) < 1 / 2 then n
  else if 1 / 2 < q - (n : ℚ) then n + 1
  else if n % 2 = 0 then n else n + 1

/-- The Python builtin `round(x, ndigits)` on the exact value: round
`x * 10 ^ ndigits` half-to-even and scale back. -/
def pyRound (q : ℚ) (ndigits : ℕ) : ℚ :=
  (roundHalfEven (q * 10 ^ ndigits) : ℚ) / 10 ^ ndigits

/-- One temperature block of `_refresh`: `read_holding_registers(values, 2,
unit=22)`, big-endian 32-bit float decode, `round(t, 2)`, publish to the
bound item. A raised read exception aborts with the read event issued. -/
def tempRead (dev : Device) (values : ℕ) (item : String) : List Event × Bool :=
  match dev.dual values with
  | Except.error _ => ([Event.readDual values 22], false)
  | Except.ok (r1, r2) =>
      ([Event.readDual values 22,
        Event.publish item (Value.rat (pyRound (decode_32bit_float r1 r2) 2))], true)

/-- A guarded temperature block: the block runs only when the address of the
current parameter equals the address of the given temperature key. -/
def tempIf (dev : Device) (values : ℕ) (item : String) (key : String) : List Event × Bool :=
  if values = regAddr key then tempRead dev values item else ([], true)

/-- One iteration of the `for pluggit_key in self._myTempReadDict` loop body
of `_refresh`, for parameter `key` bound to item `item`: the single-register
read of `registerValue`, then every translation branch of the source in
order, then the `time.sleep(0.1)`. The flag is `false` when the iteration
raises (a read exception). -/
def refreshBody (dev : Device) (key item : String) : List Event × Bool :=
  let values := regAddr key
  match dev.single values with
  | Except.error _ => ([Event.readSingle values], false)
  | Except.ok registerValue =>
      let base : List Event :=
        Event.readSingle values ::
        ((if values = regAddr "prmNumOfWeekProgram" then
            [Event.publish item (Value.nat (registerValue + 1))] else []) ++
         (if values = regAddr "prmRamIdxUnitMode" ∧ registerValue = 8 then
            [Event.publish item (Value.str "Woche")] else []) ++
         (if values = regAddr "prmRamIdxUnitMode" ∧ registerValue = 4 then
            [Event.publish item (Value.str "Manuell")] else []) ++
         (if values = regAddr "prmRomIdxSpeedLevel" then
            [Event.publish item (Value.nat registerValue)] else []) ++
         (if values = regAddr "prmFilterRemainingTime" then
            [Event.publish item (Value.nat registerValue)] else []) ++
         (if values = regAddr "prmRamIdxBypassActualState" ∧ registerValue = 255 then
            [Event.publish item (Value.str "geöffnet")] else []) ++
         (if values = regAddr "prmRamIdxBypassActualState" ∧ registerValue = 0 then
            [Event.publish item (Value.str "geschlossen")] else []))
      seqE (base, true) (fun _ =>
      seqE (tempIf dev values item "prmRamIdxT1") (fun _ =>
      seqE (tempIf dev values item "prmRamIdxT2") (fun _ =>
      seqE (tempIf dev values item "prmRamIdxT3") (fun _ =>
      seqE (tempIf dev values item "prmRamIdxT4") (fun _ =>
      ([Event.sleep (1 / 10)], true))))))

/-- The read loop of `_refresh` over the configured (parameter, item)
bindings, in configuration order: each iteration runs `refreshBody`; the
first raised exception aborts the remaining iterations (it is caught by the
`except` clause of `_refresh`, reflected as a `false` flag). -/
def refreshLoop (dev : Device) : List (String × String) → List Event × Bool
  | [] => ([], true)
  | (k, it) :: rest =>
      match refreshBody dev k it with
      | (es, false) => (es, false)
      | (es, true) =>
          let (es2, b) := refreshLoop dev rest
          (es ++ es2, b)

/-- The `connect` method on connection state `st` (`self._is_connected`):
if already connected it returns immediately with no transport activity;
otherwise it attempts to open the Modbus TCP session (`openOk` tells whether
the `ModbusTcpClient` construction succeeds) and marks connected on success. -/
def connect (openOk : Bool) (st : Bool) : List Event × Bool :=
  if st then ([], st)
  else ([Event.openSession], openOk)

/-- The `disconnect` method: close the session if connected (close errors
are swallowed), then unconditionally mark disconnected. -/
def disconnect (st : Bool) : List Event × Bool :=
  (if st then [Event.closeSession] else [], false)

/-- The whole `_refresh` method: disconnect, `time.sleep(1)`, connect, then
the read loop with its exceptions caught. Returns the event trace, the new
connection state, and whether the cycle completed without exception. -/
def refresh (openOk : Bool) (dev : Device) (st : Bool)
    (binds : List (String × String)) : List Event × Bool × Bool :=
  let d := disconnect st
  let c := connect openOk d.2
  let l := refreshLoop dev binds
  (d.1 ++ [Event.sleep 1] ++ c.1 ++ l.1, c.2, l.2)

/-- The `_activatePowerBoost` method: write UnitMode := (4, 0), sleep 0.1,
write FanSpeedLevel := (4, 0), then read back UnitMode and FanSpeedLevel.
Exceptions propagate to the caller (flag `false`, trace truncated). -/
def _activatePowerBoost (dev : Device) : List Event × Bool :=
  let w1 := Event.writeRegisters (regAddr "prmRamIdxUnitMode") [4, 0]
  match dev.write (regAddr "prmRamIdxUnitMode") [4, 0] with
  | Except.error _ => ([w1], false)
  | Except.ok _ =>
    let w2 := Event.writeRegisters (regAddr "prmRomIdxSpeedLevel") [4, 0]
    match dev.write (regAddr "prmRomIdxSpeedLevel") [4, 0] with
    | Except.error _ => ([w1, Event.sleep (1 / 10), w2], false)
    | Except.ok _ =>
      let r1 := Event.readSingle (regAddr "prmRamIdxUnitMode")
      match dev.single (regAddr "prmRamIdxUnitMode") with
      | Except.error _ => ([w1, Event.sleep (1 / 10), w2, r1], false)
      | Except.ok _ =>
        let r2 := Event.readSingle (regAddr "prmRomIdxSpeedLevel")
        match dev.single (regAddr "prmRomIdxSpeedLevel") with
        | Except.error _ => ([w1, Event.sleep (1 / 10), w2, r1, r2], false)
        | Except.ok _ => ([w1, Event.sleep (1 / 10), w2, r1, r2], true)

/-- The `_activateWeekProgram` method: write UnitMode := (8, 0), read back
UnitMode, sleep 0.1, read back FanSpeedLevel. Exceptions propagate. -/
def _activateWeekProgram (dev : Device) : List Event × Bool :=
  let w1 := Event.writeRegisters (regAddr "prmRamIdxUnitMode") [8, 0]
  match dev.write (regAddr "prmRamIdxUnitMode") [8, 0] with
  | Except.error _ => ([w1], false)
  | Except.ok _ =>
    let r1 := Event.readSingle (regAddr "prmRamIdxUnitMode")
    match dev.single (regAddr "prmRamIdxUnitMode") with
    | Except.error _ => ([w1, r1], false)
    | Except.ok _ =>
      let r2 := Event.readSingle (regAddr "prmRomIdxSpeedLevel")
      match dev.single (regAddr "prmRomIdxSpeedLevel") with
      | Except.error _ => ([w1, r1, Event.sleep (1 / 10), r2], false)
      | Except.ok _ => ([w1, r1, Event.sleep (1 / 10), r2], true)

/-- A Python value pushed into a write-bound item. -/
inductive PyVal where
  | bool (b : Bool)
  | int (n : ℤ)
  | str (s : String)
deriving DecidableEq, Repr

/-- The value-change notification delivered to `update_item`: the caller
identity of the trigger and the `pluggit_send` attribute of the changed
item (when present). -/
structure Trigger where
  caller : String
  sendAttr : Option String
deriving DecidableEq, Repr

/-- The `update_item` callback (the Command Dispatcher): ignore
self-originated triggers (`caller = "Pluggit"`); otherwise, when the item
carries `pluggit_send = "activatePowerBoost"` and the value is a bool,
dispatch to `_activatePowerBoost` (true) or `_activateWeekProgram` (false). -/
def update_item (dev : Device) (value : PyVal) (trigger : Trigger) :
    List Event × Bool :=
  if trigger.caller ≠ "Pluggit" then
    match trigger.sendAttr with
    | some command =>
        if command = "activatePowerBoost" then
          match value with
          | PyVal.bool b =>
              if b then _activatePowerBoost dev else _activateWeekProgram dev
          | _ => ([], true)
        else ([], true)
    | none => ([], true)
  else ([], true)

/-- Number of publish events to item `it` in a trace. -/
def countPublishes (it : String) : List Event → ℕ
  | [] => 0
  | Event.publish it2 _ :: rest =>
      (if it2 = it then 1 else 0) + countPublishes it rest
  | _ :: rest => countPublishes it rest

/-- Whether an event is a register read (single or dual). -/
def isRead : Event → Bool
  | Event.readSingle _ => true
  | Event.readDual _ _ => true
  | _ => false

/-- Whether an event is a register write. -/
def isWrite : Event → Bool
  | Event.writeRegisters _ _ => true
  | _ => false

/-- Whether an event opens a session. -/
def isOpen : Event → Bool
  | Event.openSession => true
  | _ => false

/-- The four float-kind (temperature) parameters. -/
def floatKeys : List String :=
  ["prmRamIdxT1", "prmRamIdxT2", "prmRamIdxT3", "prmRamIdxT4"]

/-- The configured parameter names (the keys of `_modbusRegisterDic`). -/
def readKeys : List String := _modbusRegisterDic.map Prod.fst

/-- Whether an event is a publish to a bound item. -/
def isPublish : Event → Bool
  | Event.publish _ _ => true
  | _ => false

/-- A device on which every transport operation succeeds, every
single-register read returns `v` and every dual read returns `(0, 0)`. -/
def constDev (v : ℕ) : Device where
  single := fun _ => Except.ok v
  dual := fun _ => Except.ok (0, 0)
  write := fun _ _ => Except.ok ()

/-- A device on which single-register reads and writes succeed (reading 0)
but every dual (temperature) read raises. -/
def dualFailDev : Device where
  single := fun _ => Except.ok 0
  dual := fun _ => Except.error ()
  write := fun _ _ => Except.ok ()

/-- A device on which every read raises. -/
def readFailDev : Device where
  single := fun _ => Except.error ()
  dual := fun _ => Except.error ()
  write := fun _ _ => Except.ok ()

end Pluggit

namespace Pluggit

/-! Helper lemmas about the embedding. -/

@[simp] theorem regAddr_T1 : regAddr "prmRamIdxT1" = 133 := by decide

@[simp] theorem regAddr_T2 : regAddr "prmRamIdxT2" = 135 := by decide

@[simp] theorem regAddr_T3 : regAddr "prmRamIdxT3" = 137 := by decide

@[simp] theorem regAddr_T4 : regAddr "prmRamIdxT4" = 139 := by decide

@[simp] theorem regAddr_unitMode : regAddr "prmRamIdxUnitMode" = 168 := by decide

@[simp] theorem regAddr_bypass : regAddr "prmRamIdxBypassActualState" = 198 := by decide

@[simp] theorem regAddr_speed : regAddr "prmRomIdxSpeedLevel" = 324 := by decide

@[simp] theorem regAddr_week : regAddr "prmNumOfWeekProgram" = 466 := by decide

@[simp] theorem regAddr_filter : regAddr "prmFilterRemainingTime" = 554 := by decide

@[simp] theorem countPublishes_nil (it : String) : countPublishes it [] = 0 := rfl

@[simp] theorem countPublishes_publish (it it2 : String) (v : Value) (es : List Event) :
    countPublishes it (Event.publish it2 v :: es) =
      (if it2 = it then 1 else 0) + countPublishes it es := rfl

@[simp] theorem countPublishes_readSingle (it : String) (a : ℕ) (es : List Event) :
    countPublishes it (Event.readSingle a :: es) = countPublishes it es := rfl

@[simp] theorem countPublishes_readDual (it : String) (a u : ℕ) (es : List Event) :
    countPublishes it (Event.readDual a u :: es) = countPublishes it es := rfl

@[simp] theorem countPublishes_write (it : String) (a : ℕ) (p : List ℕ) (es : List Event) :
    countPublishes it (Event.writeRegisters a p :: es) = countPublishes it es := rfl

@[simp] theorem countPublishes_sleep (it : String) (q : ℚ) (es : List Event) :
    countPublishes it (Event.sleep q :: es) = countPublishes it es := rfl

@[simp] theorem countPublishes_openSession (it : String) (es : List Event) :
    countPublishes it (Event.openSession :: es) = countPublishes it es := rfl

@[simp] theorem countPublishes_closeSession (it : String) (es : List Event) :
    countPublishes it (Event.closeSession :: es) = countPublishes it es := rfl

@[simp] theorem countPublishes_append (it : String) (a b : List Event) :
    countPublishes it (a ++ b) = countPublishes it a + countPublishes it b := by
  induction a with
  | nil => simp
  | cons e es ih => cases e <;> simp [ih, Nat.add_assoc]

@[simp] theorem seqE_fst (a : List Event × Bool) (f : Unit → List Event × Bool) :
    (seqE a f).1 = a.1 ++ (if a.2 = true then (f ()).1 else []) := by
  rcases a with ⟨es, b⟩
  cases b <;> simp [seqE]

@[simp] theorem seqE_snd (a : List Event × Bool) (f : Unit → List Event × Bool) :
    (seqE a f).2 = (a.2 && (f ()).2) := by
  rcases a with ⟨es, b⟩
  cases b <;> simp [seqE]

theorem countPublishes_tempRead (dev : Device) (v : ℕ) (item it : String)
    (h : ¬it = item) : countPublishes it (tempRead dev v item).1 = 0 := by
  have h2 : ¬item = it := fun hh => h (Eq.symm hh)
  rcases hd : dev.dual v with e | ⟨r1, r2⟩ <;> simp [tempRead, hd, h2]

theorem countPublishes_tempIf (dev : Device) (v : ℕ) (item k it : String)
    (h : ¬it = item) : countPublishes it (tempIf dev v item k).1 = 0 := by
  unfold tempIf
  split
  · exact countPublishes_tempRead dev v item it h
  · rfl

/-- Every publish issued by one loop iteration targets the item bound to its
parameter: publishes to any other item count 0. -/
theorem countPublishes_refreshBody_ne (dev : Device) (key item it : String)
    (h : ¬it = item) : countPublishes it (refreshBody dev key item).1 = 0 := by
  have hsym : ¬item = it := fun hh => h (Eq.symm hh)
  rcases hs : dev.single (regAddr key) with e | v
  · simp [refreshBody, hs]
  · simp [refreshBody, hs, countPublishes_tempIf, h, hsym,
      apply_ite (countPublishes it)]

theorem refreshLoop_cons_ok (dev : Device) (k it : String)
    (rest : List (String × String)) (h : (refreshBody dev k it).2 = true) :
    refreshLoop dev ((k, it) :: rest) =
      ((refreshBody dev k it).1 ++ (refreshLoop dev rest).1, (refreshLoop dev rest).2) := by
  rcases hb : refreshBody dev k it with ⟨es, b⟩
  rw [hb] at h
  cases b
  · simp at h
  · simp [refreshLoop, hb]

theorem refreshLoop_cons_fail (dev : Device) (k it : String)
    (rest : List (String × String)) (h : (refreshBody dev k it).2 = false) :
    refreshLoop dev ((k, it) :: rest) = ((refreshBody dev k it).1, false) := by
  rcases hb : refreshBody dev k it with ⟨es, b⟩
  rw [hb] at h
  cases b
  · simp [refreshLoop, hb]
  · simp at h

/-- When every iteration before the failing one succeeds and the iteration
for `(fk, fi)` raises, the loop trace is the concatenation of the preceding
iteration traces followed by the failing iteration trace, and the loop flag
is `false`; the parameters after the failing one are never reached. -/
theorem refreshLoop_fail_trace (dev : Device) (pre : List (String × String))
    (fk fi : String) (post : List (String × String))
    (hpre : ∀ p ∈ pre, (refreshBody dev p.1 p.2).2 = true)
    (hfail : (refreshBody dev fk fi).2 = false) :
    refreshLoop dev (pre ++ (fk, fi) :: post) =
      ((pre.map fun p => (refreshBody dev p.1 p.2).1).flatten ++
        (refreshBody dev fk fi).1, false) := by
  induction pre with
  | nil => simpa using refreshLoop_cons_fail dev fk fi post hfail
  | cons p ps ih =>
      obtain ⟨k, it⟩ := p
      have hk := hpre (k, it) (by simp)
      rw [List.cons_append, refreshLoop_cons_ok dev k it _ hk,
        ih (fun q hq => hpre q (by simp [hq]))]
      simp

/-- A loop that completes without exception produced the concatenation of
all iteration traces. -/
theorem refreshLoop_success_trace (dev : Device) (binds : List (String × String))
    (h : (refreshLoop dev binds).2 = true) :
    (refreshLoop dev binds).1 =
      (binds.map fun p => (refreshBody dev p.1 p.2).1).flatten := by
  induction binds with
  | nil => simp [refreshLoop]
  | cons p ps ih =>
      obtain ⟨k, it⟩ := p
      cases hb : (refreshBody dev k it).2
      · rw [refreshLoop_cons_fail dev k it ps hb] at h
        simp at h
      · rw [refreshLoop_cons_ok dev k it ps hb] at h ⊢
        simp [ih h]

/-- A loop that completes without exception had every iteration succeed. -/
theorem refreshLoop_success_body (dev : Device) (binds : List (String × String))
    (h : (refreshLoop dev binds).2 = true) :
    ∀ p ∈ binds, (refreshBody dev p.1 p.2).2 = true := by
  induction binds with
  | nil => simp
  | cons p ps ih =>
      obtain ⟨k, it⟩ := p
      cases hb : (refreshBody dev k it).2
      · rw [refreshLoop_cons_fail dev k it ps hb] at h
        simp at h
      · rw [refreshLoop_cons_ok dev k it ps hb] at h
        intro q hq
        rcases List.mem_cons.mp hq with rfl | hq2
        · exact hb
        · exact ih h q hq2

theorem countPublishes_join_zero (dev : Device) (l : List (String × String))
    (it : String) (h : ∀ p ∈ l, p.2 ≠ it) :
    countPublishes it ((l.map fun p => (refreshBody dev p.1 p.2).1).flatten) = 0 := by
  induction l with
  | nil => simp
  | cons p ps ih =>
      simp only [List.map_cons, List.flatten_cons, countPublishes_append]
      rw [countPublishes_refreshBody_ne dev p.1 p.2 it
          (fun hh => h p (by simp) (Eq.symm hh)),
        ih (fun q hq => h q (by simp [hq]))]

/-- Concrete loop-body trace for the UnitMode parameter. -/
theorem refreshBody_unitMode (dev : Device) (item : String) (v : ℕ)
    (hs : dev.single 168 = Except.ok v) :
    refreshBody dev "prmRamIdxUnitMode" item =
      (Event.readSingle 168 ::
        ((if v = 8 then [Event.publish item (Value.str "Woche")] else []) ++
         (if v = 4 then [Event.publish item (Value.str "Manuell")] else []) ++
         [Event.sleep (1 / 10)]), true) := by
  simp [refreshBody, hs, tempIf, seqE]

/-- Concrete loop-body trace for the WeekProgramNumber parameter. -/
theorem refreshBody_week (dev : Device) (item : String) (v : ℕ)
    (hs : dev.single 466 = Except.ok v) :
    refreshBody dev "prmNumOfWeekProgram" item =
      ([Event.readSingle 466, Event.publish item (Value.nat (v + 1)),
        Event.sleep (1 / 10)], true) := by
  simp [refreshBody, hs, tempIf, seqE]

/-- Concrete loop-body trace for the FanSpeedLevel parameter. -/
theorem refreshBody_speed (dev : Device) (item : String) (v : ℕ)
    (hs : dev.single 324 = Except.ok v) :
    refreshBody dev "prmRomIdxSpeedLevel" item =
      ([Event.readSingle 324, Event.publish item (Value.nat v),
        Event.sleep (1 / 10)], true) := by
  simp [refreshBody, hs, tempIf, seqE]

/-- Concrete loop-body trace for the FilterRemainingTime parameter. -/
theorem refreshBody_filter (dev : Device) (item : String) (v : ℕ)
    (hs : dev.single 554 = Except.ok v) :
    refreshBody dev "prmFilterRemainingTime" item =
      ([Event.readSingle 554, Event.publish item (Value.nat v),
        Event.sleep (1 / 10)], true) := by
  simp [refreshBody, hs, tempIf, seqE]

/-- Concrete loop-body trace for the BypassActualState parameter. -/
theorem refreshBody_bypass (dev : Device) (item : String) (v : ℕ)
    (hs : dev.single 198 = Except.ok v) :
    refreshBody dev "prmRamIdxBypassActualState" item =
      (Event.readSingle 198 ::
        ((if v = 255 then [Event.publish item (Value.str "geöffnet")] else []) ++
         (if v = 0 then [Event.publish item (Value.str "geschlossen")] else []) ++
         [Event.sleep (1 / 10)]), true) := by
  simp [refreshBody, hs, tempIf, seqE]

/-- Concrete loop-body trace for the T1 temperature parameter when both
reads succeed. -/
theorem refreshBody_T1 (dev : Device) (item : String) (v r1 r2 : ℕ)
    (hs : dev.single 133 = Except.ok v)
    (hd : dev.dual 133 = Except.ok (r1, r2)) :
    refreshBody dev "prmRamIdxT1" item =
      ([Event.readSingle 133, Event.readDual 133 22,
        Event.publish item (Value.rat (pyRound (decode_32bit_float r1 r2) 2)),
        Event.sleep (1 / 10)], true) := by
  simp [refreshBody, hs, tempIf, tempRead, hd, seqE]

/-- Concrete loop-body trace for the T2 temperature parameter when both
reads succeed. -/
theorem refreshBody_T2 (dev : Device) (item : String) (v r1 r2 : ℕ)
    (hs : dev.single 135 = Except.ok v)
    (hd : dev.dual 135 = Except.ok (r1, r2)) :
    refreshBody dev "prmRamIdxT2" item =
      ([Event.readSingle 135, Event.readDual 135 22,
        Event.publish item (Value.rat (pyRound (decode_32bit_float r1 r2) 2)),
        Event.sleep (1 / 10)], true) := by
  simp [refreshBody, hs, tempIf, tempRead, hd, seqE]

/-- Concrete loop-body trace for the T3 temperature parameter when both
reads succeed. -/
theorem refreshBody_T3 (dev : Device) (item : String) (v r1 r2 : ℕ)
    (hs : dev.single 137 = Except.ok v)
    (hd : dev.dual 137 = Except.ok (r1, r2)) :
    refreshBody dev "prmRamIdxT3" item =
      ([Event.readSingle 137, Event.readDual 137 22,
        Event.publish item (Value.rat (pyRound (decode_32bit_float r1 r2) 2)),
        Event.sleep (1 / 10)], true) := by
  simp [refreshBody, hs, tempIf, tempRead, hd, seqE]

/-- Concrete loop-body trace for the T4 temperature parameter when both
reads succeed. -/
theorem refreshBody_T4 (dev : Device) (item : String) (v r1 r2 : ℕ)
    (hs : dev.single 139 = Except.ok v)
    (hd : dev.dual 139 = Except.ok (r1, r2)) :
    refreshBody dev "prmRamIdxT4" item =
      ([Event.readSingle 139, Event.readDual 139 22,
        Event.publish item (Value.rat (pyRound (decode_32bit_float r1 r2) 2)),
        Event.sleep (1 / 10)], true) := by
  simp [refreshBody, hs, tempIf, tempRead, hd, seqE]

/-- A loop body whose initial single-register read raises: the iteration
aborts at once. -/
theorem refreshBody_singleFail (dev : Device) (key item : String)
    (hs : dev.single (regAddr key) = Except.error ()) :
    refreshBody dev key item = ([Event.readSingle (regAddr key)], false) := by
  simp [refreshBody, hs]

/-- A loop iteration that raised published nothing: a failing iteration is
either the initial read failing (before any translation branch) or a
temperature dual read failing (whose parameter address rules out every
integer publish branch). -/
theorem countPublishes_refreshBody_fail (dev : Device) (key item it : String)
    (hf : (refreshBody dev key item).2 = false) :
    countPublishes it (refreshBody dev key item).1 = 0 := by
  rcases hs : dev.single (regAddr key) with e | v
  · obtain ⟨⟩ := e
    rw [refreshBody_singleFail dev key item hs]
    simp
  · by_cases h1 : regAddr key = 133
    · rw [h1] at hs
      rcases hd : dev.dual 133 with e | ⟨r1, r2⟩
      · simp [refreshBody, hs, h1, tempIf, tempRead, hd, seqE]
      · exfalso
        simp [refreshBody, hs, h1, tempIf, tempRead, hd, seqE] at hf
    · by_cases h2 : regAddr key = 135
      · rw [h2] at hs
        rcases hd : dev.dual 135 with e | ⟨r1, r2⟩
        · simp [refreshBody, hs, h2, tempIf, tempRead, hd, seqE]
        · exfalso
          simp [refreshBody, hs, h2, tempIf, tempRead, hd, seqE] at hf
      · by_cases h3 : regAddr key = 137
        · rw [h3] at hs
          rcases hd : dev.dual 137 with e | ⟨r1, r2⟩
          · simp [refreshBody, hs, h3, tempIf, tempRead, hd, seqE]
          · exfalso
            simp [refreshBody, hs, h3, tempIf, tempRead, hd, seqE] at hf
        · by_cases h4 : regAddr key = 139
          · rw [h4] at hs
            rcases hd : dev.dual 139 with e | ⟨r1, r2⟩
            · simp [refreshBody, hs, h4, tempIf, tempRead, hd, seqE]
            · exfalso
              simp [refreshBody, hs, h4, tempIf, tempRead, hd, seqE] at hf
          · exfalso
            simp [refreshBody, hs, tempIf, h1, h2, h3, h4, seqE] at hf

/-- The refresh trace publishes exactly what its read loop publishes: the
disconnect, settle sleep and connect steps publish nothing. -/
theorem countPublishes_refresh (it : String) (o : Bool) (dev : Device) (st : Bool)
    (binds : List (String × String)) :
    countPublishes it (refresh o dev st binds).1 =
      countPublishes it (refreshLoop dev binds).1 := by
  cases st <;> cases o <;> simp [refresh, disconnect, connect]

/-- The cycle-success flag of a refresh is the flag of its read loop. -/
theorem refresh_flag (o : Bool) (dev : Device) (st : Bool)
    (binds : List (String × String)) :
    (refresh o dev st binds).2.2 = (refreshLoop dev binds).2 := rfl

/-- After any refresh the connection state is the outcome of the reconnect,
regardless of whether the read loop raised. -/
theorem refresh_connState (o : Bool) (dev : Device) (st : Bool)
    (binds : List (String × String)) :
    (refresh o dev st binds).2.1 = o := by
  cases st <;> simp [refresh, disconnect, connect]

/-- Publish count of one successful iteration into its own bound item:
at most one, and exactly one except for the UnitMode and BypassActualState
parameters (whose unmapped raw values publish nothing). -/
theorem countPublishes_refreshBody_self (dev : Device) (key item : String)
    (hk : key ∈ readKeys) (hok : (refreshBody dev key item).2 = true) :
    countPublishes item (refreshBody dev key item).1 ≤ 1 ∧
    (¬key = "prmRamIdxUnitMode" → ¬key = "prmRamIdxBypassActualState" →
      countPublishes item (refreshBody dev key item).1 = 1) := by
  simp only [readKeys, _modbusRegisterDic, List.map_cons, List.map_nil,
    List.mem_cons, List.not_mem_nil, or_false] at hk
  rcases hk with rfl | rfl | rfl | rfl | rfl | rfl | rfl | rfl | rfl
  · rcases hs : dev.single 133 with e | v
    · obtain ⟨⟩ := e
      rw [refreshBody_singleFail dev _ item (by simpa using hs)] at hok
      simp at hok
    · rcases hd : dev.dual 133 with e | ⟨r1, r2⟩
      · obtain ⟨⟩ := e
        simp [refreshBody, hs, tempIf, tempRead, hd, seqE] at hok
      · rw [refreshBody_T1 dev item v r1 r2 hs hd]
        simp
  · rcases hs : dev.single 135 with e | v
    · obtain ⟨⟩ := e
      rw [refreshBody_singleFail dev _ item (by simpa using hs)] at hok
      simp at hok
    · rcases hd : dev.dual 135 with e | ⟨r1, r2⟩
      · obtain ⟨⟩ := e
        simp [refreshBody, hs, tempIf, tempRead, hd, seqE] at hok
      · rw [refreshBody_T2 dev item v r1 r2 hs hd]
        simp
  · rcases hs : dev.single 137 with e | v
    · obtain ⟨⟩ := e
      rw [refreshBody_singleFail dev _ item (by simpa using hs)] at hok
      simp at hok
    · rcases hd : dev.dual 137 with e | ⟨r1, r2⟩
      · obtain ⟨⟩ := e
        simp [refreshBody, hs, tempIf, tempRead, hd, seqE] at hok
      · rw [refreshBody_T3 dev item v r1 r2 hs hd]
        simp
  · rcases hs : dev.single 139 with e | v
    · obtain ⟨⟩ := e
      rw [refreshBody_singleFail dev _ item (by simpa using hs)] at hok
      simp at hok
    · rcases hd : dev.dual 139 with e | ⟨r1, r2⟩
      · obtain ⟨⟩ := e
        simp [refreshBody, hs, tempIf, tempRead, hd, seqE] at hok
      · rw [refreshBody_T4 dev item v r1 r2 hs hd]
        simp
  · rcases hs : dev.single 168 with e | v
    · obtain ⟨⟩ := e
      rw [refreshBody_singleFail dev _ item (by simpa using hs)] at hok
      simp at hok
    · rw [refreshBody_unitMode dev item v hs]
      constructor
      · simp [apply_ite (countPublishes item)]
        split_ifs <;> omega
      · intro habs
        exact absurd rfl habs
  · rcases hs : dev.single 198 with e | v
    · obtain ⟨⟩ := e
      rw [refreshBody_singleFail dev _ item (by simpa using hs)] at hok
      simp at hok
    · rw [refreshBody_bypass dev item v hs]
      constructor
      · simp [apply_ite (countPublishes item)]
        split_ifs <;> omega
      · intro _ habs
        exact absurd rfl habs
  · rcases hs : dev.single 324 with e | v
    · obtain ⟨⟩ := e
      rw [refreshBody_singleFail dev _ item (by simpa using hs)] at hok
      simp at hok
    · rw [refreshBody_speed dev item v hs]
      simp
  · rcases hs : dev.single 466 with e | v
    · obtain ⟨⟩ := e
      rw [refreshBody_singleFail dev _ item (by simpa using hs)] at hok
      simp at hok
    · rw [refreshBody_week dev item v hs]
      simp
  · rcases hs : dev.single 554 with e | v
    · obtain ⟨⟩ := e
      rw [refreshBody_singleFail dev _ item (by simpa using hs)] at hok
      simp at hok
    · rw [refreshBody_filter dev item v hs]
      simp

/-- Claim C1, counterexample: for the float-kind parameter T1 (bound to item
t1) a successful refresh-loop iteration does NOT issue exactly one register
read: it issues two — the unconditional single-register read at address 133
AND the dual-register read at unit 22 — refuting the claimed
single-or-dual-but-never-both behaviour at the concrete device whose reads
all succeed returning 0. -/
theorem C1_counterexample :
    (refreshBody (constDev 0) "prmRamIdxT1" "t1").2 = true ∧
    ((refreshBody (constDev 0) "prmRamIdxT1" "t1").1.filter isRead).length ≠ 1 ∧
    Event.readSingle 133 ∈ (refreshBody (constDev 0) "prmRamIdxT1" "t1").1 ∧
    Event.readDual 133 22 ∈ (refreshBody (constDev 0) "prmRamIdxT1" "t1").1 := by
  have h := refreshBody_T1 (constDev 0) "t1" 0 0 0 rfl rfl
  rw [h]
  exact ⟨rfl, by simp [isRead], by simp, by simp⟩

/-- Claim C1, amended: in a successful refresh-loop iteration for a
configured parameter, integer kinds issue exactly one single-register read
at the parameter address, while float kinds issue a single-register read at
the address FOLLOWED BY a dual-register read with the secondary station id
22 (two reads, not one). -/
theorem C1_reads_per_parameter (dev : Device) (key item : String)
    (hk : key ∈ readKeys) (hok : (refreshBody dev key item).2 = true) :
    (refreshBody dev key item).1.filter isRead =
      if key ∈ floatKeys
      then [Event.readSingle (regAddr key), Event.readDual (regAddr key) 22]
      else [Event.readSingle (regAddr key)] := by
  simp only [readKeys, _modbusRegisterDic, List.map_cons, List.map_nil,
    List.mem_cons, List.not_mem_nil, or_false] at hk
  rcases hk with rfl | rfl | rfl | rfl | rfl | rfl | rfl | rfl | rfl
  · rw [if_pos (by decide)]
    rcases hs : dev.single 133 with e | v
    · obtain ⟨⟩ := e
      rw [refreshBody_singleFail dev _ item (by simpa using hs)] at hok
      simp at hok
    · rcases hd : dev.dual 133 with e | ⟨r1, r2⟩
      · obtain ⟨⟩ := e
        simp [refreshBody, hs, tempIf, tempRead, hd, seqE] at hok
      · rw [refreshBody_T1 dev item v r1 r2 hs hd]
        simp [isRead]
  · rw [if_pos (by decide)]
    rcases hs : dev.single 135 with e | v
    · obtain ⟨⟩ := e
      rw [refreshBody_singleFail dev _ item (by simpa using hs)] at hok
      simp at hok
    · rcases hd : dev.dual 135 with e | ⟨r1, r2⟩
      · obtain ⟨⟩ := e
        simp [refreshBody, hs, tempIf, tempRead, hd, seqE] at hok
      · rw [refreshBody_T2 dev item v r1 r2 hs hd]
        simp [isRead]
  · rw [if_pos (by decide)]
    rcases hs : dev.single 137 with e | v
    · obtain ⟨⟩ := e
      rw [refreshBody_singleFail dev _ item (by simpa using hs)] at hok
      simp at hok
    · rcases hd : dev.dual 137 with e | ⟨r1, r2⟩
      · obtain ⟨⟩ := e
        simp [refreshBody, hs, tempIf, tempRead, hd, seqE] at hok
      · rw [refreshBody_T3 dev item v r1 r2 hs hd]
        simp [isRead]
  · rw [if_pos (by decide)]
    rcases hs : dev.single 139 with e | v
    · obtain ⟨⟩ := e
      rw [refreshBody_singleFail dev _ item (by simpa using hs)] at hok
      simp at hok
    · rcases hd : dev.dual 139 with e | ⟨r1, r2⟩
      · obtain ⟨⟩ := e
        simp [refreshBody, hs, tempIf, tempRead, hd, seqE] at hok
      · rw [refreshBody_T4 dev item v r1 r2 hs hd]
        simp [isRead]
  · rw [if_neg (by decide)]
    rcases hs : dev.single 168 with e | v
    · obtain ⟨⟩ := e
      rw [refreshBody_singleFail dev _ item (by simpa using hs)] at hok
      simp at hok
    · rw [refreshBody_unitMode dev item v hs]
      simp [isRead, apply_ite (List.filter isRead)]
  · rw [if_neg (by decide)]
    rcases hs : dev.single 198 with e | v
    · obtain ⟨⟩ := e
      rw [refreshBody_singleFail dev _ item (by simpa using hs)] at hok
      simp at hok
    · rw [refreshBody_bypass dev item v hs]
      simp [isRead, apply_ite (List.filter isRead)]
  · rw [if_neg (by decide)]
    rcases hs : dev.single 324 with e | v
    · obtain ⟨⟩ := e
      rw [refreshBody_singleFail dev _ item (by simpa using hs)] at hok
      simp at hok
    · rw [refreshBody_speed dev item v hs]
      simp [isRead]
  · rw [if_neg (by decide)]
    rcases hs : dev.single 466 with e | v
    · obtain ⟨⟩ := e
      rw [refreshBody_singleFail dev _ item (by simpa using hs)] at hok
      simp at hok
    · rw [refreshBody_week dev item v hs]
      simp [isRead]
  · rw [if_neg (by decide)]
    rcases hs : dev.single 554 with e | v
    · obtain ⟨⟩ := e
      rw [refreshBody_singleFail dev _ item (by simpa using hs)] at hok
      simp at hok
    · rw [refreshBody_filter dev item v hs]
      simp [isRead]

/-- Claim C1, witness: the amended theorem applied to the concrete device
whose reads succeed with 0, for the integer parameter UnitMode. -/
theorem C1_witness :
    "prmRamIdxUnitMode" ∈ readKeys ∧
    (refreshBody (constDev 0) "prmRamIdxUnitMode" "um").2 = true ∧
    (refreshBody (constDev 0) "prmRamIdxUnitMode" "um").1.filter isRead =
      (if "prmRamIdxUnitMode" ∈ floatKeys
       then [Event.readSingle (regAddr "prmRamIdxUnitMode"),
             Event.readDual (regAddr "prmRamIdxUnitMode") 22]
       else [Event.readSingle (regAddr "prmRamIdxUnitMode")]) :=
  ⟨by decide, by decide,
    C1_reads_per_parameter (constDev 0) "prmRamIdxUnitMode" "um" (by decide) (by decide)⟩

/-- Claim C5, counterexample: with the UnitMode register reading 8, the
successful iteration publishes the German label Woche to the bound item and
publishes no event carrying the label week-program-active, refuting the
claimed published label as stated. -/
theorem C5_counterexample :
    (refreshBody (constDev 8) "prmRamIdxUnitMode" "um").2 = true ∧
    Event.publish "um" (Value.str "Woche") ∈
      (refreshBody (constDev 8) "prmRamIdxUnitMode" "um").1 ∧
    Event.publish "um" (Value.str "week-program-active") ∉
      (refreshBody (constDev 8) "prmRamIdxUnitMode" "um").1 := by
  have h := refreshBody_unitMode (constDev 8) "um" 8 rfl
  rw [h]
  exact ⟨rfl, by decide, by decide⟩

/-- Claim C5, amended: when the refresh cycle reads the UnitMode parameter,
raw 8 publishes exactly the label Woche (the code label meaning week
program active), raw 4 publishes exactly Manuell (manual mode active), and
every other raw value publishes nothing for this parameter in that cycle. -/
theorem C5_unitMode_translation (dev : Device) (item : String) (v : ℕ)
    (hs : dev.single 168 = Except.ok v) :
    (refreshBody dev "prmRamIdxUnitMode" item).1.filter isPublish =
      (if v = 8 then [Event.publish item (Value.str "Woche")]
       else if v = 4 then [Event.publish item (Value.str "Manuell")]
       else []) := by
  rw [refreshBody_unitMode dev item v hs]
  simp only [List.filter, isPublish, apply_ite (List.filter isPublish)]
  split_ifs <;> simp_all [isPublish]

/-- Claim C5, witness: the amended theorem at the concrete device reading 8
from every register. -/
theorem C5_witness :
    (constDev 8).single 168 = Except.ok 8 ∧
    (refreshBody (constDev 8) "prmRamIdxUnitMode" "um").1.filter isPublish =
      (if 8 = 8 then [Event.publish "um" (Value.str "Woche")]
       else if 8 = 4 then [Event.publish "um" (Value.str "Manuell")]
       else []) :=
  ⟨rfl, C5_unitMode_translation (constDev 8) "um" 8 rfl⟩

/-- Claim C6, counterexample: with the BypassActualState register reading
255, the successful iteration publishes the German label geöffnet to the
bound item and publishes no event carrying the label open, refuting the
claimed published label as stated. -/
theorem C6_counterexample :
    (refreshBody (constDev 255) "prmRamIdxBypassActualState" "byp").2 = true ∧
    Event.publish "byp" (Value.str "geöffnet") ∈
      (refreshBody (constDev 255) "prmRamIdxBypassActualState" "byp").1 ∧
    Event.publish "byp" (Value.str "open") ∉
      (refreshBody (constDev 255) "prmRamIdxBypassActualState" "byp").1 := by
  have h := refreshBody_bypass (constDev 255) "byp" 255 rfl
  rw [h]
  exact ⟨rfl, by decide, by decide⟩

/-- Claim C6, amended: when the refresh cycle reads the BypassActualState
parameter, raw 255 publishes exactly the label geöffnet (open), raw 0
publishes exactly geschlossen (closed), and every other raw value — in
particular 1, 32 and 64 — publishes nothing for this parameter in that
cycle. -/
theorem C6_bypass_translation (dev : Device) (item : String) (v : ℕ)
    (hs : dev.single 198 = Except.ok v) :
    (refreshBody dev "prmRamIdxBypassActualState" item).1.filter isPublish =
      (if v = 255 then [Event.publish item (Value.str "geöffnet")]
       else if v = 0 then [Event.publish item (Value.str "geschlossen")]
       else []) := by
  rw [refreshBody_bypass dev item v hs]
  simp only [List.filter, isPublish, apply_ite (List.filter isPublish)]
  split_ifs <;> simp_all [isPublish]

/-- Claim C6, witness: the amended theorem at the concrete device reading
255 from every register. -/
theorem C6_witness :
    (constDev 255).single 198 = Except.ok 255 ∧
    (refreshBody (constDev 255) "prmRamIdxBypassActualState" "byp").1.filter isPublish =
      (if 255 = 255 then [Event.publish "byp" (Value.str "geöffnet")]
       else if 255 = 0 then [Event.publish "byp" (Value.str "geschlossen")]
       else []) :=
  ⟨rfl, C6_bypass_translation (constDev 255) "byp" 255 rfl⟩

/-- Claim C7: for every raw register value n in 0..10 read for the
WeekProgramNumber parameter, the value published to its bound item is
n + 1 (and it is the only publish of the iteration). -/
theorem C7_weekProgram_increment (dev : Device) (item : String) (n : ℕ)
    (_hn : n ≤ 10) (hs : dev.single 466 = Except.ok n) :
    (refreshBody dev "prmNumOfWeekProgram" item).1.filter isPublish =
      [Event.publish item (Value.nat (n + 1))] := by
  rw [refreshBody_week dev item n hs]
  simp [isPublish]

/-- Claim C7, witness: the increment theorem at raw value 5. -/
theorem C7_witness :
    (5 : ℕ) ≤ 10 ∧ (constDev 5).single 466 = Except.ok 5 ∧
    (refreshBody (constDev 5) "prmNumOfWeekProgram" "wk").1.filter isPublish =
      [Event.publish "wk" (Value.nat 6)] :=
  ⟨by decide, rfl, C7_weekProgram_increment (constDev 5) "wk" 5 (by decide) rfl⟩

/-- Claim C8: a value-change notification whose originator identity equals
this component identity (caller Pluggit) is a no-op for the Command
Dispatcher: no register write, no register read, no event at all, and no
exception. -/
theorem C8_self_trigger_noop (dev : Device) (value : PyVal) (attr : Option String) :
    update_item dev value { caller := "Pluggit", sendAttr := attr } = ([], true) := by
  simp [update_item]

/-- Claim C9: calling connect twice in sequence from the connected state
opens no session at all (hence at most once); any single connect call in
the connected state opens no new session. -/
theorem C9_connect_idempotent :
    (∀ o1 o2 : Bool,
      (((connect o1 true).1 ++
        (connect o2 (connect o1 true).2).1).filter isOpen).length ≤ 1) ∧
    (∀ o : Bool, ((connect o true).1.filter isOpen).length = 0) := by
  decide

/-- Claim C2, counterexample: a refresh cycle over the single binding of the
UnitMode parameter to item um, on a device whose reads all succeed
returning 0, completes without exception yet publishes NOTHING to um (raw 0
matches neither translation branch), refuting the claimed exactly-one
publish per bound item. -/
theorem C2_counterexample :
    (refresh true (constDev 0) false [("prmRamIdxUnitMode", "um")]).2.2 = true ∧
    countPublishes "um"
      (refresh true (constDev 0) false [("prmRamIdxUnitMode", "um")]).1 = 0 := by
  decide

/-- Claim C2, amended: in a refresh cycle without exception over configured
parameters with pairwise distinct bound items, each parameter receives AT
MOST one publish to its bound item, and exactly one unless the parameter is
UnitMode or BypassActualState (whose unmapped raw values publish nothing). -/
theorem C2_publishes_per_item (o : Bool) (dev : Device) (st : Bool)
    (pre post : List (String × String)) (k it : String)
    (hconf : ∀ p ∈ pre ++ (k, it) :: post, p.1 ∈ readKeys)
    (hdist : ∀ p ∈ pre ++ post, p.2 ≠ it)
    (hok : (refresh o dev st (pre ++ (k, it) :: post)).2.2 = true) :
    countPublishes it (refresh o dev st (pre ++ (k, it) :: post)).1 ≤ 1 ∧
    (¬k = "prmRamIdxUnitMode" → ¬k = "prmRamIdxBypassActualState" →
      countPublishes it (refresh o dev st (pre ++ (k, it) :: post)).1 = 1) := by
  rw [refresh_flag] at hok
  have hbody := refreshLoop_success_body dev _ hok (k, it) (by simp)
  have htrace := refreshLoop_success_trace dev _ hok
  have hcount : countPublishes it (refresh o dev st (pre ++ (k, it) :: post)).1 =
      countPublishes it (refreshBody dev k it).1 := by
    rw [countPublishes_refresh, htrace, List.map_append, List.map_cons,
      List.flatten_append, List.flatten_cons, countPublishes_append,
      countPublishes_append,
      countPublishes_join_zero dev pre it (fun p hp => hdist p (by simp [hp])),
      countPublishes_join_zero dev post it (fun p hp => hdist p (by simp [hp]))]
    simp
  rw [hcount]
  exact countPublishes_refreshBody_self dev k it (hconf (k, it) (by simp)) hbody

/-- Claim C2, witness: amended theorem for the FanSpeedLevel parameter as
the only binding, on the all-zero device. -/
theorem C2_witness :
    (∀ p ∈ ([] : List (String × String)) ++ ("prmRomIdxSpeedLevel", "fan") :: [],
      p.1 ∈ readKeys) ∧
    (refresh true (constDev 0) false
      (([] : List (String × String)) ++ ("prmRomIdxSpeedLevel", "fan") :: [])).2.2 = true ∧
    countPublishes "fan"
      (refresh true (constDev 0) false
        (([] : List (String × String)) ++ ("prmRomIdxSpeedLevel", "fan") :: [])).1 = 1 :=
  ⟨by decide, by decide,
    (C2_publishes_per_item true (constDev 0) false [] [] "prmRomIdxSpeedLevel" "fan"
      (by decide) (by decide) (by decide)).2 (by decide) (by decide)⟩

/-- Claim C3: triggering activatePowerBoost with true issues the write
UnitMode := 4 then (after a nonzero 0.1 delay) the write
FanSpeedLevel := 4, followed by read-backs of UnitMode and FanSpeedLevel;
triggering with false issues only the write UnitMode := 8 followed by
read-backs of UnitMode and FanSpeedLevel; every write carries the 2-word
payload (value, 0). -/
theorem C3_powerBoost_sequence (dev : Device) (caller : String)
    (hc : caller ≠ "Pluggit") (m f : ℕ)
    (hw1 : dev.write 168 [4, 0] = Except.ok ())
    (hw2 : dev.write 324 [4, 0] = Except.ok ())
    (hw3 : dev.write 168 [8, 0] = Except.ok ())
    (hr1 : dev.single 168 = Except.ok m)
    (hr2 : dev.single 324 = Except.ok f) :
    (update_item dev (PyVal.bool true)
        { caller := caller, sendAttr := some "activatePowerBoost" }).1 =
      [Event.writeRegisters 168 [4, 0], Event.sleep (1 / 10),
       Event.writeRegisters 324 [4, 0], Event.readSingle 168,
       Event.readSingle 324] ∧
    (update_item dev (PyVal.bool false)
        { caller := caller, sendAttr := some "activatePowerBoost" }).1 =
      [Event.writeRegisters 168 [8, 0], Event.readSingle 168,
       Event.sleep (1 / 10), Event.readSingle 324] ∧
    (1 : ℚ) / 10 ≠ 0 ∧
    (∀ a p, Event.writeRegisters a p ∈
        (update_item dev (PyVal.bool true)
          { caller := caller, sendAttr := some "activatePowerBoost" }).1 →
      ∃ w, p = [w, 0]) ∧
    (∀ a p, Event.writeRegisters a p ∈
        (update_item dev (PyVal.bool false)
          { caller := caller, sendAttr := some "activatePowerBoost" }).1 →
      a = 168 ∧ p = [8, 0]) := by
  have ht : (update_item dev (PyVal.bool true)
      { caller := caller, sendAttr := some "activatePowerBoost" }).1 =
      [Event.writeRegisters 168 [4, 0], Event.sleep (1 / 10),
       Event.writeRegisters 324 [4, 0], Event.readSingle 168,
       Event.readSingle 324] := by
    simp [update_item, hc, _activatePowerBoost, hw1, hw2, hr1, hr2]
  have hfalse : (update_item dev (PyVal.bool false)
      { caller := caller, sendAttr := some "activatePowerBoost" }).1 =
      [Event.writeRegisters 168 [8, 0], Event.readSingle 168,
       Event.sleep (1 / 10), Event.readSingle 324] := by
    simp [update_item, hc, _activateWeekProgram, hw3, hr1, hr2]
  refine ⟨ht, hfalse, by norm_num, ?_, ?_⟩
  · rw [ht]
    intro a p hp
    simp only [List.mem_cons, List.not_mem_nil, or_false] at hp
    rcases hp with h | h | h | h | h <;> simp_all
  · rw [hfalse]
    intro a p hp
    simp only [List.mem_cons, List.not_mem_nil, or_false] at hp
    rcases hp with h | h | h | h <;> simp_all

/-- Claim C3, witness: the sequence theorem on the all-zero device with an
external caller. -/
theorem C3_witness :
    ("web" : String) ≠ "Pluggit" ∧
    (update_item (constDev 0) (PyVal.bool true)
        { caller := "web", sendAttr := some "activatePowerBoost" }).1 =
      [Event.writeRegisters 168 [4, 0], Event.sleep (1 / 10),
       Event.writeRegisters 324 [4, 0], Event.readSingle 168,
       Event.readSingle 324] :=
  ⟨by decide,
    (C3_powerBoost_sequence (constDev 0) "web" (by decide) 0 0
      rfl rfl rfl rfl rfl).1⟩

/-- Claim C4: if the read of the parameter at position k raises while all
earlier reads succeeded, nothing is published in that cycle for the failing
parameter nor for any later parameter; the exception is caught inside the
cycle (the refresh function returns a trace and a failure flag, the
connection state it leaves equals the reconnect outcome exactly as for a
successful cycle), and the next invocation therefore runs the full
procedure from the beginning unaffected. -/
theorem C4_read_error_aborts_cycle (o : Bool) (dev : Device) (st : Bool)
    (pre post : List (String × String)) (fk fi : String)
    (hpre : ∀ p ∈ pre, (refreshBody dev p.1 p.2).2 = true)
    (hfail : (refreshBody dev fk fi).2 = false) :
    (∀ it, it ∈ ((fk, fi) :: post).map Prod.snd →
      (∀ p ∈ pre, p.2 ≠ it) →
      countPublishes it (refresh o dev st (pre ++ (fk, fi) :: post)).1 = 0) ∧
    (refresh o dev st (pre ++ (fk, fi) :: post)).2.2 = false ∧
    (refresh o dev st (pre ++ (fk, fi) :: post)).2.1 = o ∧
    (∀ o2 dev2 binds2,
      refresh o2 dev2 (refresh o dev st (pre ++ (fk, fi) :: post)).2.1 binds2 =
        refresh o2 dev2 o binds2) := by
  have hloop := refreshLoop_fail_trace dev pre fk fi post hpre hfail
  refine ⟨?_, ?_, refresh_connState o dev st _, ?_⟩
  · intro it _ hdist
    rw [countPublishes_refresh, hloop]
    simp only [countPublishes_append]
    rw [countPublishes_join_zero dev pre it hdist,
      countPublishes_refreshBody_fail dev fk fi it hfail]
  · rw [refresh_flag, hloop]
  · intro o2 dev2 binds2
    rw [refresh_connState]

/-- Claim C4, witness: a three-binding cycle on a device whose temperature
dual reads raise; the failure occurs at the middle (T1) parameter and
nothing is published to its item. -/
theorem C4_witness :
    (∀ p ∈ [("prmRomIdxSpeedLevel", "fan")],
      (refreshBody dualFailDev p.1 p.2).2 = true) ∧
    (refreshBody dualFailDev "prmRamIdxT1" "t1").2 = false ∧
    countPublishes "t1"
      (refresh true dualFailDev false
        ([("prmRomIdxSpeedLevel", "fan")] ++
          ("prmRamIdxT1", "t1") :: [("prmFilterRemainingTime", "flt")])).1 = 0 :=
  ⟨by decide, by decide,
    (C4_read_error_aborts_cycle true dualFailDev false
      [("prmRomIdxSpeedLevel", "fan")] [("prmFilterRemainingTime", "flt")]
      "prmRamIdxT1" "t1" (by decide) (by decide)).1 "t1" (by decide) (by decide)⟩

/-- Claim C10: for any two register words whose big-endian concatenation
encodes the IEEE754 binary32 float 23.456 — that is, whose decoded value is
within a half unit in the last place (2 to the minus 20) of 23.456 — the
decoded and 2-decimal-rounded result equals 23.46. The decoder is modelled
from the spec (vendored pymodbus payload module absent from the snapshot). -/
theorem C10_float_decode_round (r1 r2 : ℕ)
    (h : |decode_32bit_float r1 r2 - 23456 / 1000| ≤ 1 / 2 ^ 20) :
    pyRound (decode_32bit_float r1 r2) 2 = 2346 / 100 := by
  set q := decode_32bit_float r1 r2 with hq
  have habs := abs_le.mp h
  have e1 : (10 : ℚ) ^ 2 = 100 := by norm_num
  have h1 : (23456 : ℚ) / 1000 - 1 / 2 ^ 20 ≤ q := by linarith [habs.1]
  have h2 : q ≤ (23456 : ℚ) / 1000 + 1 / 2 ^ 20 := by linarith [habs.2]
  have hfloor : ⌊q * 10 ^ 2⌋ = 2345 := by
    rw [Int.floor_eq_iff]
    constructor
    · push_cast
      rw [e1]
      linarith
    · push_cast
      rw [e1]
      linarith
  simp only [pyRound, roundHalfEven, hfloor]
  rw [if_neg (by push_cast; rw [e1]; linarith),
    if_pos (by push_cast; rw [e1]; linarith)]
  push_cast
  norm_num

/-- Claim C10, witness: the concrete register pair 0x41BB, 0xA5E3 (16827,
42467), whose concatenation 0x41BBA5E3 is the binary32 encoding of 23.456;
its decode is 12297699 / 524288 and the rounded publish value is 23.46. -/
theorem C10_witness :
    |decode_32bit_float 16827 42467 - 23456 / 1000| ≤ 1 / 2 ^ 20 ∧
    pyRound (decode_32bit_float 16827 42467) 2 = 2346 / 100 := by
  have hdec : decode_32bit_float 16827 42467 = 12297699 / 524288 := by
    norm_num [decode_32bit_float]
  constructor
  · rw [hdec, abs_le]
    constructor <;> norm_num
  · exact C10_float_decode_round 16827 42467
      (by rw [hdec, abs_le]; constructor <;> norm_num)

end Pluggit
